import Mathlib

/-!
Shallow embedding of lbry/blockchain/sync/synchronizer.py (class BlockchainSync).

Python/asyncio semantics embedded here:
  * asyncio.wait(fs, return_when=FIRST_EXCEPTION) raises ValueError when fs is
    empty (CPython asyncio/tasks.py: if not fs, raise ValueError).  Otherwise it
    returns (done, pending); with FIRST_EXCEPTION it returns as soon as a task
    finishes with an exception, or when all tasks are done.  We model the
    nondeterministic completion schedule by giving each call the list of task
    outcomes in completion order: done is the prefix up to and including the
    first exceptional outcome (or the whole list when none is exceptional),
    pending is the rest.
  * future.result() re-raises the stored exception of a failed task.
  * Python truthiness: None is falsy, a non-empty tuple is truthy, a number is
    truthy iff non-zero, a list is truthy iff non-empty, an empty set is falsy.
Machine integers do not overflow here (Python ints are unbounded), so heights
are Int (the DB returns -1 for a file with no indexed block) and counts are Nat.
-/

/-- Exceptions that the embedded code can raise.  taskErr carries an opaque
payload identifying the exception object stored in a task future. -/
inductive PyErr where
  | valueError
  | taskErr (e : Nat)
  deriving DecidableEq, Repr

/-- Eventual outcome of one task passed to run_tasks: either a normal result
(for sync_block_file tasks, the highest height committed, an Int) or a stored
exception. -/
inductive Outcome where
  | ok (height : Int)
  | err (e : Nat)
  deriving DecidableEq, Repr

/-- True when the outcome is a stored exception. -/
def Outcome.isErr : Outcome → Bool
  | .ok _ => false
  | .err _ => true

/-- Mutable coordinator state touched by run_tasks: the DB stop event
(self.db.stop_event) and the list of futures that have been cancelled. -/
structure TGState where
  stopEvent : Bool
  cancelled : List Outcome
  deriving DecidableEq, Repr

/-- asyncio.wait(order, return_when=FIRST_EXCEPTION) for a non-empty task list
given in completion order: done is the prefix through the first exceptional
outcome, or everything when no task fails; pending is the remainder.  An empty
task list raises ValueError (CPython checks `if not fs` before anything else). -/
def waitFirstException (order : List Outcome) :
    Except PyErr (List Outcome × List Outcome) :=
  if order.isEmpty then
    Except.error PyErr.valueError
  else
    let done := order.takeWhile (fun o => !o.isErr)
    let rest := order.dropWhile (fun o => !o.isErr)
    match rest with
    | [] => Except.ok (order, [])
    | e :: pending => Except.ok (done ++ [e], pending)

/-- The first stored exception among a list of done futures, in iteration
order, as surfaced by calling future.result() on each. -/
def firstErr : List Outcome → Option Nat
  | [] => none
  | .ok _ :: rest => firstErr rest
  | .err e :: _ => some e

/-- BlockchainSync.run_tasks (synchronizer.py lines 67-78).  Awaits the tasks
under FIRST_EXCEPTION; if any are still pending, sets the DB stop event,
cancels the pending futures and reads every done result (re-raising the first
stored exception); otherwise returns the done set unexamined. -/
def run_tasks (order : List Outcome) (st : TGState) :
    Except PyErr (Option (List Outcome)) × TGState :=
  match waitFirstException order with
  | Except.error e => (Except.error e, st)
  | Except.ok (done, pending) =>
    if pending.isEmpty then
      (Except.ok (some done), st)
    else
      let st2 : TGState :=
        { stopEvent := true, cancelled := st.cancelled ++ pending }
      match firstErr done with
      | some e => (Except.error (PyErr.taskErr e), st2)
      | none => (Except.ok none, st2)

example :
    run_tasks [Outcome.ok 5, Outcome.err 7, Outcome.ok 9] ⟨false, []⟩ =
      (Except.error (PyErr.taskErr 7), ⟨true, [Outcome.ok 9]⟩) := rfl

example :
    run_tasks [Outcome.ok 5, Outcome.ok 9] ⟨false, []⟩ =
      (Except.ok (some [Outcome.ok 5, Outcome.ok 9]), ⟨false, []⟩) := rfl


/-- One record returned by chain.db.get_block_files: the file number, the
highest block height stored in the file, and its transaction/block counts. -/
structure FileRec where
  file_number : Nat
  best_height : Int
  txs : Nat
  blocks : Nat
  deriving DecidableEq, Repr

/-- A block-range descriptor: the (starting_height, ending_height) tuples that
flow between phases.  The first component is an Option because sync_blocks can
in principle return None as the starting height of the added range. -/
abbrev Batch := Option Int × Int

/-- Modelled from the spec: the TXO type code for channel claims lives in the
DB constants module (lbry.db.constants), which is not part of the sources; the
spec says the codes are opaque identifiers, so the concrete value is
immaterial. -/
def txoChannel : List Nat := [2]

/-- Modelled from the spec: the content-type code set CONTENT_TYPE_CODES from
the DB constants module, treated as an opaque identifier set. -/
def contentTypeCodes : List Nat := [1, 3, 4, 5, 6]

/-- Modelled from the spec: the TXO type code for supports from the DB
constants module, treated as an opaque identifier. -/
def txoSupport : List Nat := [7]

/-- The environment of one advance cycle: results of every chain and DB query
the coordinator can issue.  Functions stand for parametrised queries. -/
structure Env where
  best_height : Int
  block_files : List FileRec
  refetch : Nat → Int → FileRec
  best_for_file : Nat → Int
  fileOutcome : Nat → Outcome
  claim_metadata_count : Option Int → Int → Nat
  support_metadata_count : Option Int → Int → Nat
  spv_address_filters : Bool
  has_claims : Bool
  has_supports : Bool
  distribute_unspent_txos : List Nat → Nat × List Batch
  count_unspent_txos : List Nat → Batch → Bool → Bool → Bool → Nat
  count_abandoned_claims : Nat
  count_abandoned_supports : Nat
  count_claims_with_changed_supports : Batch → Nat
  count_channels_with_changed_content : Batch → Nat
  get_takeover_count : Batch → Nat

/-- Observable effects of one advance cycle, in program order: DB tasks
dispatched, main-progress starts, detached-task lifecycle markers, and the
outbound BlockEvent. -/
inductive Act where
  | startBlockMain (blocks txs : Nat) (startingHeight : Option Int)
      (endingHeight : Int) (files claims supports : Nat)
  | syncBlockFile (file_number : Nat) (start_height : Int) (txs : Nat)
  | syncTxoi (genesisPath : Bool)
  | startClaimMain (total : Nat)
  | claimsInsert (txoTypes : List Nat) (batch : Batch) (updateExisting : Bool)
  | claimsUpdate (txoTypes : List Nat) (batch : Batch)
  | claimsDelete (n : Nat)
  | updateTakeovers (blocks : Option Batch) (n : Nat)
  | updateStakes (blocks : Option Batch) (n : Nat)
  | startSupportMain (total : Nat)
  | supportsInsert (batch : Batch) (updateExisting : Bool)
  | supportsDelete (n : Nat)
  | updateChannelStats (blocks : Option Batch) (initial : Bool) (n : Nat)
  | startFiltersTask
  | startTrendsTask
  | awaitTrends
  | awaitFilters
  | blockEvent (height : Int)
  deriving DecidableEq, Repr

/-- Accumulator of the per-file loop in sync_blocks: spawned tasks as
(file_number, start_height, txs), the running minimum starting height, and the
tx/block totals. -/
structure SBAcc where
  tasks : List (Nat × Int × Nat)
  starting_height : Option Int
  tx_count : Nat
  block_count : Nat
  deriving Repr

/-- Body of the per-file loop of sync_blocks (synchronizer.py lines 91-114):
skip the file when the indexed best height equals the file tip; when the file
is partially indexed (-1 < indexed < tip) refetch the record restricted to
heights from indexed+1; then accumulate counts, update the minimum starting
height and spawn a sync_block_file task starting at indexed+1 with the
(possibly refetched) record's tx count. -/
def processFile (env : Env) (acc : SBAcc) (f : FileRec) : SBAcc :=
  let ourBest := env.best_for_file f.file_number
  if ourBest == f.best_height then acc
  else
    let cf := if -1 < ourBest ∧ ourBest < f.best_height
              then env.refetch f.file_number (ourBest + 1)
              else f
    { tasks := acc.tasks ++ [(cf.file_number, ourBest + 1, cf.txs)]
      starting_height :=
        some (min (acc.starting_height.getD (ourBest + 1)) (ourBest + 1))
      tx_count := acc.tx_count + cf.txs
      block_count := acc.block_count + cf.blocks }

/-- The heights of the successful results among the done futures. -/
def okHeights : List Outcome → List Int
  | [] => []
  | .ok h :: rest => h :: okHeights rest
  | .err _ :: rest => okHeights rest

/-- Python max over the generator of f.result() for f in completed: reading a
stored exception re-raises it, otherwise the maximum height is produced (none
when the set is empty, a case the caller guards with Python truthiness). -/
def resultsMax (done : List Outcome) : Except PyErr (Option Int) :=
  match firstErr done with
  | some e => Except.error (PyErr.taskErr e)
  | none =>
    match (okHeights done).max? with
    | some m => Except.ok (some m)
    | none => Except.ok none

/-- BlockchainSync.sync_blocks (synchronizer.py lines 85-126): walk the chain
block files, spawn one sync_block_file task per file with missing blocks, run
them through run_tasks, and if the completed set is truthy return the tuple
(starting_height, max height committed across tasks). -/
def sync_blocks (env : Env) (tg : TGState) :
    List Act × TGState × Except PyErr (Option Batch) :=
  let ending_height := env.best_height
  let acc := env.block_files.foldl (processFile env) ⟨[], none, 0, 0⟩
  let spawn := acc.tasks.map (fun t => Act.syncBlockFile t.1 t.2.1 t.2.2)
  let startA := Act.startBlockMain acc.block_count acc.tx_count
      acc.starting_height ending_height acc.tasks.length
      (env.claim_metadata_count acc.starting_height ending_height)
      (env.support_metadata_count acc.starting_height ending_height)
  let outcomes := acc.tasks.map (fun t => env.fileOutcome t.1)
  let trace := spawn ++ [startA]
  match run_tasks outcomes tg with
  | (Except.error e, tg2) => (trace, tg2, Except.error e)
  | (Except.ok none, tg2) => (trace, tg2, Except.ok none)
  | (Except.ok (some done), tg2) =>
    match resultsMax done with
    | Except.error e => (trace, tg2, Except.error e)
    | Except.ok none => (trace, tg2, Except.ok none)
    | Except.ok (some m) =>
      (trace, tg2, Except.ok (some (acc.starting_height, m)))

/-- Python equality test blocks_added[0] == 0 where the first tuple component
may be None: None == 0 is False. -/
def pyEqZero : Option Int → Bool
  | some s => s == 0
  | none => false

/-- BlockchainSync.sync_txios (synchronizer.py lines 139-141): when
blocks_added is truthy (a tuple, hence not None), run the single sync_txoi DB
task, passing blocks_added[0] == 0 as the genesis-path flag. -/
def sync_txios (blocks_added : Option Batch) : List Act :=
  match blocks_added with
  | some b => [Act.syncTxoi (pyEqZero b.1)]
  | none => []

/-- The main-progress section of sync_claims (synchronizer.py lines 239-264),
shared by the initial and incremental branches: start the claims main progress
with the planned total, run claims_insert over each batch per type with
update_existing = not initial_sync, after the inserts run claims_update over
the same batches unless this is the initial sync, then claims_delete,
update_takeovers and update_stakes guarded by their counts, and finally return
(initial_sync, channels_with_changed_content) when the latter is non-zero. -/
def claimsMain (initial_sync : Bool) (blocks : Option Batch) (total : Nat)
    (channel_batches content_batches : List Batch)
    (delete_claims takeovers claims_with_changed_supports
      channels_with_changed_content : Nat) :
    List Act × Option (Bool × Nat) :=
  let perType := fun (ty : List Nat) (batches : List Batch) =>
    if batches.isEmpty then []
    else
      batches.map (fun b => Act.claimsInsert ty b (!initial_sync)) ++
      (if initial_sync then []
       else batches.map (fun b => Act.claimsUpdate ty b))
  let acts := [Act.startClaimMain total]
      ++ perType txoChannel channel_batches
      ++ perType contentTypeCodes content_batches
      ++ (if 0 < delete_claims then [Act.claimsDelete delete_claims] else [])
      ++ (if 0 < takeovers then [Act.updateTakeovers blocks takeovers] else [])
      ++ (if 0 < claims_with_changed_supports
          then [Act.updateStakes blocks claims_with_changed_supports] else [])
  (acts,
   if 0 < channels_with_changed_content
   then some (initial_sync, channels_with_changed_content) else none)

/-- BlockchainSync.sync_claims (synchronizer.py lines 190-264).  When the DB
has no claims yet the initial branch distributes channel and content unspent
TXOs into batches, counts every channel as a changed channel, and the planned
total is channels + channels_with_changed_content + content; otherwise, when
blocks is truthy, the incremental branch computes the six planning counts; with
no blocks it returns None before the main section. -/
def sync_claims (env : Env) (blocks : Option Batch) :
    List Act × Option (Bool × Nat) :=
  let initial_sync := !env.has_claims
  if initial_sync then
    let r1 := env.distribute_unspent_txos txoChannel
    let channels := r1.1
    let channel_batches := r1.2
    let channels_with_changed_content := channels
    let r2 := env.distribute_unspent_txos contentTypeCodes
    let content := r2.1
    let content_batches := r2.2
    let total := channels + channels_with_changed_content + content
    claimsMain initial_sync blocks total channel_batches content_batches
      0 0 0 channels_with_changed_content
  else
    match blocks with
    | some bs =>
      let channels := env.count_unspent_txos txoChannel bs false false true
      let channel_batches := if 0 < channels then [bs] else []
      let content := env.count_unspent_txos contentTypeCodes bs false false true
      let content_batches := if 0 < content then [bs] else []
      let delete_claims := env.count_abandoned_claims
      let claims_with_changed_supports :=
        env.count_claims_with_changed_supports bs
      let channels_with_changed_content :=
        env.count_channels_with_changed_content bs
      let takeovers := env.get_takeover_count bs
      let total := channels + content + delete_claims
        + claims_with_changed_supports + channels_with_changed_content
        + takeovers
      claimsMain initial_sync blocks total channel_batches content_batches
        delete_claims takeovers claims_with_changed_supports
        channels_with_changed_content
    | none => ([], none)

/-- BlockchainSync.sync_supports (synchronizer.py lines 266-295): the initial
branch distributes unspent support TXOs; the incremental branch counts missing
supports over the range and abandoned supports; then supports_insert per batch
with update-existing = not initial_sync, and supports_delete when the
abandoned count is non-zero. -/
def sync_supports (env : Env) (blocks : Option Batch) : List Act :=
  let initial_sync := !env.has_supports
  if initial_sync then
    let r := env.distribute_unspent_txos txoSupport
    [Act.startSupportMain r.1]
      ++ (if r.2.isEmpty then []
          else r.2.map (fun b => Act.supportsInsert b (!initial_sync)))
  else
    match blocks with
    | some bs =>
      let inserts := env.count_unspent_txos txoSupport bs true false false
      let support_batches := if 0 < inserts then [bs] else []
      let delete_supports := env.count_abandoned_supports
      let total := inserts + delete_supports
      [Act.startSupportMain total]
        ++ (if support_batches.isEmpty then []
            else support_batches.map
              (fun b => Act.supportsInsert b (!initial_sync)))
        ++ (if 0 < delete_supports
            then [Act.supportsDelete delete_supports] else [])
    | none => []

/-- BlockchainSync.sync_channel_stats (synchronizer.py lines 297-301): a single
update_channel_stats DB task, run only when the changed-channels count is
truthy. -/
def sync_channel_stats (blocks : Option Batch) (initial_sync : Bool)
    (channels_with_changed_content : Nat) : List Act :=
  if 0 < channels_with_changed_content then
    [Act.updateChannelStats blocks initial_sync channels_with_changed_content]
  else []

/-- BlockchainSync.sync_filters (synchronizer.py lines 128-137): returns at
once when the spv_address_filters config flag is off; otherwise the chunk
enumeration is commented out in the source, so the task list is empty and
run_tasks is invoked on an empty list, which raises ValueError inside
asyncio.wait. -/
def sync_filters (env : Env) (tg : TGState) : TGState × Except PyErr Unit :=
  if !env.spv_address_filters then (tg, Except.ok ())
  else
    match run_tasks [] tg with
    | (Except.error e, tg2) => (tg2, Except.error e)
    | (Except.ok _, tg2) => (tg2, Except.ok ())

/-- BlockchainSync.advance (synchronizer.py lines 306-318): sync_blocks, then
detach the filter and trend tasks, then sequentially sync_txios, sync_claims,
sync_supports and, when sync_claims returned channel stats, sync_channel_stats;
then await the trend and filter tasks; finally, when blocks were added, emit
BlockEvent(blocks_added[-1]).  The returned list is the cycle trace in program
order; the Except records an exception escaping advance. -/
def advance (env : Env) : List Act × Except PyErr Unit :=
  let r := sync_blocks env ⟨false, []⟩
  let bActs := r.1
  let tg := r.2.1
  match r.2.2 with
  | Except.error e => (bActs, Except.error e)
  | Except.ok blocks_added =>
    let c := sync_claims env blocks_added
    let acts2 := bActs ++ [Act.startFiltersTask, Act.startTrendsTask]
      ++ sync_txios blocks_added
      ++ c.1
      ++ sync_supports env blocks_added
      ++ (match c.2 with
          | some st => sync_channel_stats blocks_added st.1 st.2
          | none => [])
      ++ [Act.awaitTrends]
    match sync_filters env tg with
    | (_, Except.error e) => (acts2, Except.error e)
    | (_, Except.ok _) =>
      match blocks_added with
      | some b =>
        (acts2 ++ [Act.awaitFilters, Act.blockEvent b.2], Except.ok ())
      | none => (acts2 ++ [Act.awaitFilters], Except.ok ())

/-- How one call to advance() ends, as seen by the advance loop. -/
inductive AdvanceOutcome where
  | normal
  | cancelled
  | error (e : Nat)
  deriving DecidableEq, Repr

/-- State of the advance loop: the edge-triggered advance_loop_event, whether
stop() has cancelled the loop task (self.advance_loop_task.cancel(), which
makes the next await raise CancelledError), the DB stop event, the
subscription state, the number of advance() calls made, and the exceptions
logged by log.exception. -/
structure LoopSt where
  eventSet : Bool
  cancelRequested : Bool
  stopped : Bool
  unsubscribed : Bool
  advanceCalls : Nat
  logged : List Nat
  deriving DecidableEq, Repr

/-- BlockchainSync.stop (synchronizer.py lines 59-65): unsubscribe from the
chain, set the DB stop event and cancel the advance loop task. -/
def stopModel (s : LoopSt) : LoopSt :=
  { s with unsubscribed := true, stopped := true, cancelRequested := true }

/-- BlockchainSync.advance_loop (synchronizer.py lines 320-331) run against a
schedule: each schedule entry is the outcome of the advance() call of one
iteration together with the number of upstream on_block notifications arriving
during that call (each notification sets advance_loop_event, line 56).  An
iteration waits on the event — raising CancelledError and ending the task when
stop() has cancelled it, and blocking forever (ending the schedule) when the
event is clear — then clears the event once before calling advance().  A
cancelled advance() returns from the loop; an exception is logged, stop() is
called, and the loop continues to the next wait. -/
def advance_loop_run : List (AdvanceOutcome × Nat) → LoopSt → LoopSt
  | [], s => s
  | (o, k) :: rest, s =>
    if s.cancelRequested then s
    else if !s.eventSet then s
    else
      let s1 := { s with eventSet := decide (0 < k),
                         advanceCalls := s.advanceCalls + 1 }
      match o with
      | AdvanceOutcome.cancelled => s1
      | AdvanceOutcome.error e =>
        advance_loop_run rest (stopModel { s1 with logged := s1.logged ++ [e] })
      | AdvanceOutcome.normal => advance_loop_run rest s1

/-- Cold-start environment: chain at height 9, one block file of 10 blocks and
25 txs, nothing indexed yet, 2 channel claims, 3 content claims, 1 support,
address filters disabled. -/
def envCold : Env where
  best_height := 9
  block_files := [⟨0, 9, 25, 10⟩]
  refetch := fun _ _ => ⟨0, 9, 25, 10⟩
  best_for_file := fun _ => -1
  fileOutcome := fun _ => Outcome.ok 9
  claim_metadata_count := fun _ _ => 5
  support_metadata_count := fun _ _ => 1
  spv_address_filters := false
  has_claims := false
  has_supports := false
  distribute_unspent_txos := fun tys =>
    if tys = txoChannel then (2, [(some 0, 9)])
    else if tys = contentTypeCodes then (3, [(some 0, 9)])
    else (1, [(some 0, 9)])
  count_unspent_txos := fun _ _ _ _ _ => 0
  count_abandoned_claims := 0
  count_abandoned_supports := 0
  count_claims_with_changed_supports := fun _ => 0
  count_channels_with_changed_content := fun _ => 0
  get_takeover_count := fun _ => 0

/-- Idle environment: no block files at all (empty chain); everything else
inert. -/
def envIdle : Env where
  best_height := -1
  block_files := []
  refetch := fun _ _ => ⟨0, -1, 0, 0⟩
  best_for_file := fun _ => -1
  fileOutcome := fun _ => Outcome.ok 0
  claim_metadata_count := fun _ _ => 0
  support_metadata_count := fun _ _ => 0
  spv_address_filters := false
  has_claims := true
  has_supports := true
  distribute_unspent_txos := fun _ => (0, [])
  count_unspent_txos := fun _ _ _ _ _ => 0
  count_abandoned_claims := 0
  count_abandoned_supports := 0
  count_claims_with_changed_supports := fun _ => 0
  count_channels_with_changed_content := fun _ => 0
  get_takeover_count := fun _ => 0

/-- Incremental environment matching spec scenario 3: chain at height 14, one
file previously indexed to height 9, 5 new blocks, 1 new content claim, 1
changed support, 1 changed channel, no abandons, no takeovers. -/
def envIncr : Env where
  best_height := 14
  block_files := [⟨0, 14, 40, 15⟩]
  refetch := fun fn s => if fn = 0 ∧ s = 10 then ⟨0, 14, 12, 5⟩ else ⟨9, 9, 9, 9⟩
  best_for_file := fun _ => 9
  fileOutcome := fun _ => Outcome.ok 14
  claim_metadata_count := fun _ _ => 1
  support_metadata_count := fun _ _ => 1
  spv_address_filters := false
  has_claims := true
  has_supports := true
  distribute_unspent_txos := fun _ => (0, [])
  count_unspent_txos := fun tys _ _ _ _ =>
    if tys = contentTypeCodes then 1
    else if tys = txoSupport then 1
    else 0
  count_abandoned_claims := 0
  count_abandoned_supports := 0
  count_claims_with_changed_supports := fun _ => 1
  count_channels_with_changed_content := fun _ => 1
  get_takeover_count := fun _ => 0


/-- The empty-guard around a mapped batch list collapses to the plain map. -/
theorem if_isEmpty_map {α β : Type} (l : List α) (f : α → β) :
    (if l.isEmpty then ([] : List β) else l.map f) = l.map f := by
  cases l <;> simp

/-- C1: the claim says run_tasks, on any non-empty task list with a failing
task, signals the DB stop event, cancels pending tasks and re-raises the first
exception, never swallowing it — in particular when the failing task is the
last to complete.  The code violates this: when no tasks remain pending
(asyncio.wait already saw every task finish), the `if pending` branch of
run_tasks is skipped and the done set is returned with the stored exception
unread, the stop event clear, and nothing cancelled; callers such as
sync_claims and sync_supports discard this return value, so the exception is
swallowed. -/
theorem C1_run_tasks_swallows_last_exception :
    run_tasks [Outcome.err 7] ⟨false, []⟩ =
      (Except.ok (some [Outcome.err 7]), ⟨false, []⟩) ∧
    run_tasks [Outcome.ok 5, Outcome.err 7] ⟨false, []⟩ =
      (Except.ok (some [Outcome.ok 5, Outcome.err 7]), ⟨false, []⟩) :=
  ⟨rfl, rfl⟩

/-- All-indexed environment: one block file whose indexed best height equals
its chain tip, so no file needs work. -/
def envAllIndexed : Env :=
  { envIdle with
      best_height := 9
      block_files := [⟨0, 9, 25, 10⟩]
      best_for_file := fun _ => 9 }

/-- C2: the claim says that when no block file needs work, sync_blocks returns
None without raising and advance skips the downstream phases quietly.  The
code instead reaches run_tasks with an empty task list, and asyncio.wait
raises ValueError on an empty set, so sync_blocks and advance raise: on the
empty chain and on a fully indexed file alike. -/
theorem C2_sync_blocks_raises_when_no_work :
    (sync_blocks envIdle ⟨false, []⟩).2.2 = Except.error PyErr.valueError ∧
    (advance envIdle).2 = Except.error PyErr.valueError ∧
    (sync_blocks envAllIndexed ⟨false, []⟩).2.2
        = Except.error PyErr.valueError ∧
    (advance envAllIndexed).2 = Except.error PyErr.valueError :=
  ⟨rfl, rfl, rfl, rfl⟩

/-- C9: sync_txios dispatches its single sync_txoi DB task exactly when the
added range is present (a non-empty tuple), and the genesis flag it passes is
exactly the test that the range starts at height 0 (a None starting height is
not 0). -/
theorem C9_sync_txios_gating :
    (∀ ob : Option Batch, sync_txios ob ≠ [] ↔ ob.isSome) ∧
    (∀ b : Batch, sync_txios (some b) =
      [Act.syncTxoi (decide (b.1 = some 0))]) ∧
    sync_txios none = [] := by
  refine ⟨?_, ?_, rfl⟩
  · intro ob
    cases ob <;> simp [sync_txios]
  · intro b
    rcases b with ⟨s, e⟩
    cases s with
    | none => simp [sync_txios, pyEqZero]
    | some v =>
      simp only [sync_txios, pyEqZero, List.cons.injEq, and_true]
      congr 1
      by_cases h : v = 0 <;> simp [h]

/-- C9 witness: a genesis range runs the task on the fast path, a later range
runs it with the flag off, and an absent range runs nothing. -/
theorem C9_sync_txios_gating_witness :
    sync_txios (some (some 0, 9)) = [Act.syncTxoi true] ∧
    sync_txios (some (some 10, 14)) = [Act.syncTxoi false] ∧
    sync_txios none = [] :=
  ⟨C9_sync_txios_gating.2.1 (some 0, 9),
   C9_sync_txios_gating.2.1 (some 10, 14),
   C9_sync_txios_gating.2.2⟩

/-- In the initial-sync branch the main section inserts each batch with
update_existing = false, runs no update/delete/takeover/stake step, and
returns the changed-channels count exactly when it is non-zero. -/
theorem claimsMain_initial (blocks : Option Batch) (total : Nat)
    (cb ct : List Batch) (ch : Nat) :
    claimsMain true blocks total cb ct 0 0 0 ch =
      (Act.startClaimMain total ::
        (cb.map (fun b => Act.claimsInsert txoChannel b false) ++
         ct.map (fun b => Act.claimsInsert contentTypeCodes b false)),
       if 0 < ch then some (true, ch) else none) := by
  cases cb <;> cases ct <;> simp [claimsMain]

/-- Under an initial sync, sync_claims reduces to the initial branch of
claimsMain applied to the two distribution results. -/
theorem sync_claims_initial (env : Env) (blocks : Option Batch)
    (hclaims : env.has_claims = false) :
    sync_claims env blocks =
      claimsMain true blocks
        ((env.distribute_unspent_txos txoChannel).1
          + (env.distribute_unspent_txos txoChannel).1
          + (env.distribute_unspent_txos contentTypeCodes).1)
        (env.distribute_unspent_txos txoChannel).2
        (env.distribute_unspent_txos contentTypeCodes).2
        0 0 0 (env.distribute_unspent_txos txoChannel).1 := by
  simp [sync_claims, hclaims]

/-- C10: on an initial claim sync, the total announced on the claims
main-progress event is twice the channel count plus the content count, the
channels being counted once as insertions and once more as changed channels. -/
theorem C10_initial_claim_total (env : Env) (blocks : Option Batch)
    (hclaims : env.has_claims = false) :
    (sync_claims env blocks).1.head? =
      some (Act.startClaimMain
        (2 * (env.distribute_unspent_txos txoChannel).1
          + (env.distribute_unspent_txos contentTypeCodes).1)) := by
  rw [sync_claims_initial env blocks hclaims, claimsMain_initial]
  simp
  omega

/-- C10 witness: on the cold-start environment with 2 channels and 3 content
claims the announced total is 7. -/
theorem C10_initial_claim_total_witness :
    envCold.has_claims = false ∧
    (sync_claims envCold (some (some 0, 9))).1.head? =
      some (Act.startClaimMain 7) :=
  ⟨rfl, C10_initial_claim_total envCold (some (some 0, 9)) rfl⟩

/-- C3: on an initial sync with at least one channel, sync_claims returns
(initial_sync = true, channel count), every claims_insert it dispatches has
update_existing = false, it dispatches no claims_update, claims_delete,
update_takeovers or update_stakes task, and feeding the returned pair to
sync_channel_stats runs the update_channel_stats task. -/
theorem C3_initial_claim_sync (env : Env) (blocks : Option Batch)
    (hclaims : env.has_claims = false)
    (hch : 0 < (env.distribute_unspent_txos txoChannel).1) :
    (sync_claims env blocks).2 =
      some (true, (env.distribute_unspent_txos txoChannel).1) ∧
    (∀ ty b u, Act.claimsInsert ty b u ∈ (sync_claims env blocks).1 →
      u = false) ∧
    (∀ ty b, Act.claimsUpdate ty b ∉ (sync_claims env blocks).1) ∧
    (∀ n, Act.claimsDelete n ∉ (sync_claims env blocks).1) ∧
    (∀ ob n, Act.updateTakeovers ob n ∉ (sync_claims env blocks).1) ∧
    (∀ ob n, Act.updateStakes ob n ∉ (sync_claims env blocks).1) ∧
    sync_channel_stats blocks true
        ((env.distribute_unspent_txos txoChannel).1) =
      [Act.updateChannelStats blocks true
        ((env.distribute_unspent_txos txoChannel).1)] := by
  rw [sync_claims_initial env blocks hclaims, claimsMain_initial]
  refine ⟨by simp [hch], ?_, ?_, ?_, ?_, ?_, by simp [sync_channel_stats, hch]⟩
  · intro ty b u hu
    simp only [List.mem_cons, List.mem_append, List.mem_map] at hu
    rcases hu with h | ⟨x, _, h⟩ | ⟨x, _, h⟩ <;> cases h <;> rfl
  · intro ty b hu
    simp only [List.mem_cons, List.mem_append, List.mem_map] at hu
    rcases hu with h | ⟨x, _, h⟩ | ⟨x, _, h⟩ <;> cases h
  · intro n hu
    simp only [List.mem_cons, List.mem_append, List.mem_map] at hu
    rcases hu with h | ⟨x, _, h⟩ | ⟨x, _, h⟩ <;> cases h
  · intro ob n hu
    simp only [List.mem_cons, List.mem_append, List.mem_map] at hu
    rcases hu with h | ⟨x, _, h⟩ | ⟨x, _, h⟩ <;> cases h
  · intro ob n hu
    simp only [List.mem_cons, List.mem_append, List.mem_map] at hu
    rcases hu with h | ⟨x, _, h⟩ | ⟨x, _, h⟩ <;> cases h

/-- C3 witness: the cold-start environment has no claims, 2 channels, and
sync_claims returns (true, 2). -/
theorem C3_initial_claim_sync_witness :
    envCold.has_claims = false ∧
    0 < (envCold.distribute_unspent_txos txoChannel).1 ∧
    (sync_claims envCold (some (some 0, 9))).2 = some (true, 2) :=
  ⟨rfl, by decide,
   (C3_initial_claim_sync envCold (some (some 0, 9)) rfl (by decide)).1⟩

/-- C7: in the per-file loop of sync_blocks, a file whose indexed best height
equals its chain tip is skipped outright, and a partially indexed file
(-1 < indexed < tip) is refetched restricted to heights from indexed+1, the
spawned sync_block_file task starting at indexed+1 with the refetched record's
tx count, the accumulated totals taking the refetched tx and block counts. -/
theorem C7_per_file_cases (env : Env) (acc : SBAcc) (f : FileRec) :
    (env.best_for_file f.file_number = f.best_height →
      processFile env acc f = acc) ∧
    (∀ b : Int, env.best_for_file f.file_number = b →
      -1 < b → b < f.best_height →
      processFile env acc f =
        { tasks := acc.tasks ++
            [((env.refetch f.file_number (b + 1)).file_number, b + 1,
              (env.refetch f.file_number (b + 1)).txs)]
          starting_height :=
            some (min (acc.starting_height.getD (b + 1)) (b + 1))
          tx_count := acc.tx_count + (env.refetch f.file_number (b + 1)).txs
          block_count :=
            acc.block_count + (env.refetch f.file_number (b + 1)).blocks }) := by
  constructor
  · intro h
    simp [processFile, h]
  · intro b hb h1 h2
    have hne : env.best_for_file f.file_number ≠ f.best_height := by
      rw [hb]; omega
    simp [processFile, hne, hb, h1, h2]
    intro h3
    exact absurd h3 (by omega)

/-- Mid-file resume environment: file 3 has tip 1000, the index holds heights
up to 600, and the refetch restricted to heights from 601 reports the missing
suffix of 400 blocks and 2100 txs. -/
def envMid : Env :=
  { envIdle with
      best_height := 1000
      block_files := [⟨3, 1000, 5000, 1000⟩]
      best_for_file := fun _ => 600
      refetch := fun fn s =>
        if fn = 3 ∧ s = 601 then ⟨3, 1000, 2100, 400⟩ else ⟨0, -1, 0, 0⟩
      fileOutcome := fun _ => Outcome.ok 1000 }

/-- C7 witness: the mid-file environment spawns one task for exactly the
missing suffix, starting at 601 with the refetched tx count, and a fully
indexed file adds nothing. -/
theorem C7_per_file_cases_witness :
    processFile envMid ⟨[], none, 0, 0⟩ ⟨3, 1000, 5000, 1000⟩ =
      { tasks := [(3, 601, 2100)], starting_height := some 601,
        tx_count := 2100, block_count := 400 } ∧
    processFile envAllIndexed ⟨[], none, 0, 0⟩ ⟨0, 9, 25, 10⟩ =
      ⟨[], none, 0, 0⟩ :=
  ⟨by
    have h := (C7_per_file_cases envMid ⟨[], none, 0, 0⟩
      ⟨3, 1000, 5000, 1000⟩).2 600 rfl (by decide) (by decide)
    simpa using h,
   (C7_per_file_cases envAllIndexed ⟨[], none, 0, 0⟩ ⟨0, 9, 25, 10⟩).1 rfl⟩

/-- C8: under an incremental claim sync over an added range, the cycle trace
of sync_claims is exactly: the main-progress start with the six-count total;
per claim type, when the count is non-zero, claims_insert with
update_existing = true immediately followed by claims_update; then
claims_delete exactly when the abandoned count is non-zero; then
update_takeovers exactly when the takeover count is non-zero; then
update_stakes exactly when the changed-support count is non-zero. -/
theorem C8_incremental_order (env : Env) (bs : Batch)
    (hclaims : env.has_claims = true) :
    (sync_claims env (some bs)).1 =
      Act.startClaimMain
          (env.count_unspent_txos txoChannel bs false false true
            + env.count_unspent_txos contentTypeCodes bs false false true
            + env.count_abandoned_claims
            + env.count_claims_with_changed_supports bs
            + env.count_channels_with_changed_content bs
            + env.get_takeover_count bs) ::
        ((if 0 < env.count_unspent_txos txoChannel bs false false true then
            [Act.claimsInsert txoChannel bs true,
             Act.claimsUpdate txoChannel bs]
          else []) ++
         (if 0 < env.count_unspent_txos contentTypeCodes bs false false true
          then
            [Act.claimsInsert contentTypeCodes bs true,
             Act.claimsUpdate contentTypeCodes bs]
          else []) ++
         (if 0 < env.count_abandoned_claims then
            [Act.claimsDelete env.count_abandoned_claims] else []) ++
         (if 0 < env.get_takeover_count bs then
            [Act.updateTakeovers (some bs) (env.get_takeover_count bs)]
          else []) ++
         (if 0 < env.count_claims_with_changed_supports bs then
            [Act.updateStakes (some bs)
              (env.count_claims_with_changed_supports bs)]
          else [])) := by
  by_cases h1 : 0 < env.count_unspent_txos txoChannel bs false false true <;>
    by_cases h2 :
      0 < env.count_unspent_txos contentTypeCodes bs false false true <;>
    simp [sync_claims, claimsMain, hclaims, h1, h2]

/-- C8 witness: the incremental environment with one new content claim and one
changed support produces exactly insert-then-update for content followed by
update_stakes. -/
theorem C8_incremental_order_witness :
    envIncr.has_claims = true ∧
    (sync_claims envIncr (some (some 10, 14))).1 =
      [Act.startClaimMain 3,
       Act.claimsInsert contentTypeCodes (some 10, 14) true,
       Act.claimsUpdate contentTypeCodes (some 10, 14),
       Act.updateStakes (some (some 10, 14)) 1] :=
  ⟨rfl, by simpa using C8_incremental_order envIncr (some 10, 14) rfl⟩

/-- C4: if K (at least 1) upstream block notifications arrive while one
advance cycle is executing, exactly one additional cycle follows, however many
notifications arrived and however long the quiet schedule afterwards: the
event is cleared once at the top of each iteration before advance runs, so all
K edges collapse into the single set state observed by the next iteration. -/
theorem C4_edge_coalescing (s : LoopSt) (K m : Nat)
    (hev : s.eventSet = true) (hc : s.cancelRequested = false) (hK : 1 ≤ K) :
    (advance_loop_run
        ((AdvanceOutcome.normal, K) :: (AdvanceOutcome.normal, 0) ::
          List.replicate m (AdvanceOutcome.normal, 0)) s).advanceCalls =
      s.advanceCalls + 2 ∧
    (advance_loop_run
        ((AdvanceOutcome.normal, K) :: (AdvanceOutcome.normal, 0) ::
          List.replicate m (AdvanceOutcome.normal, 0)) s).eventSet = false := by
  have h0 : 0 < K := hK
  cases m with
  | zero => simp [advance_loop_run, hev, hc, h0]
  | succ m2 => simp [advance_loop_run, hev, hc, h0, List.replicate]

/-- C4 witness: five notifications during a running cycle yield two cycles in
total — the running one plus exactly one follow-up — over a long quiet
schedule. -/
theorem C4_edge_coalescing_witness :
    (advance_loop_run
        ((AdvanceOutcome.normal, 5) :: (AdvanceOutcome.normal, 0) ::
          List.replicate 3 (AdvanceOutcome.normal, 0))
        ⟨true, false, false, false, 0, []⟩).advanceCalls = 0 + 2 :=
  (C4_edge_coalescing ⟨true, false, false, false, 0, []⟩ 5 3 rfl rfl
    (by decide)).1

/-- C6: in the advance loop, a cancelled advance() terminates the loop — the
rest of the schedule is never run, the state after the single call is final —
while any other exception ends the cycle by logging the exception and calling
stop(); stop() cancels the loop task, so no further advance() call happens for
any continuation of the schedule: the failed cycle is never retried
internally. -/
theorem C6_loop_error_handling (s : LoopSt) (k : Nat)
    (hev : s.eventSet = true) (hc : s.cancelRequested = false) :
    (∀ rest, advance_loop_run ((AdvanceOutcome.cancelled, k) :: rest) s =
      { s with eventSet := decide (0 < k),
               advanceCalls := s.advanceCalls + 1 }) ∧
    (∀ rest e, advance_loop_run ((AdvanceOutcome.error e, k) :: rest) s =
      stopModel
        { s with eventSet := decide (0 < k),
                 advanceCalls := s.advanceCalls + 1,
                 logged := s.logged ++ [e] }) := by
  constructor
  · intro rest
    simp [advance_loop_run, hev, hc]
  · intro rest e
    cases rest with
    | nil => simp [advance_loop_run, hev, hc, stopModel]
    | cons hd tl => simp [advance_loop_run, hev, hc, stopModel]

/-- C6 witness: a cancelled cycle is terminal with one advance call made; an
erroring cycle logs the exception, sets the stop state and makes no further
advance call even though the schedule would allow one. -/
theorem C6_loop_error_handling_witness :
    advance_loop_run
        [(AdvanceOutcome.cancelled, 2), (AdvanceOutcome.normal, 0)]
        ⟨true, false, false, false, 0, []⟩ =
      ⟨true, false, false, false, 1, []⟩ ∧
    advance_loop_run
        [(AdvanceOutcome.error 3, 0), (AdvanceOutcome.normal, 5)]
        ⟨true, false, false, false, 0, []⟩ =
      ⟨false, true, true, true, 1, [3]⟩ := by
  have h := C6_loop_error_handling ⟨true, false, false, false, 0, []⟩ 2 rfl rfl
  have h2 := C6_loop_error_handling ⟨true, false, false, false, 0, []⟩ 0 rfl rfl
  exact ⟨by simpa using h.1 [(AdvanceOutcome.normal, 0)],
         by simpa [stopModel] using h2.2 [(AdvanceOutcome.normal, 5)] 3⟩

/-- True exactly on the outbound BlockEvent action. -/
def isBlockEvent : Act → Bool
  | .blockEvent _ => true
  | _ => false

/-- Number of BlockEvent emissions in a cycle trace. -/
def countBE (l : List Act) : Nat := l.countP (fun a => isBlockEvent a)

theorem countBE_append (l1 l2 : List Act) :
    countBE (l1 ++ l2) = countBE l1 + countBE l2 :=
  List.countP_append _ _ _

theorem countBE_map {β : Type} (l : List β) (f : β → Act)
    (h : ∀ b, isBlockEvent (f b) = false) : countBE (l.map f) = 0 := by
  induction l with
  | nil => rfl
  | cons x xs ih =>
    simp only [List.map_cons, countBE, List.countP_cons, h x] at *
    simp [ih]

theorem countBE_ite (c : Prop) [Decidable c] (l1 l2 : List Act)
    (h1 : countBE l1 = 0) (h2 : countBE l2 = 0) :
    countBE (if c then l1 else l2) = 0 := by
  split <;> assumption

/-- A list with no BlockEvent member counts zero BlockEvents. -/
theorem countBE_eq_zero_of (l : List Act)
    (h : ∀ a ∈ l, isBlockEvent a = false) : countBE l = 0 :=
  List.countP_eq_zero.mpr (by intro a ha; simp [h a ha])

/-- Membership in a guarded singleton forces the element. -/
theorem eq_of_mem_ite_singleton {c : Prop} [Decidable c] {x a : Act}
    (h : a ∈ (if c then [x] else [])) : a = x := by
  split at h
  · simpa using h
  · simp at h

/-- The block phase never emits the outbound BlockEvent itself. -/
theorem countBE_sync_blocks (env : Env) (tg : TGState) :
    countBE (sync_blocks env tg).1 = 0 := by
  simp only [sync_blocks]
  split <;> (try split) <;>
    (apply countBE_eq_zero_of
     intro a ha
     simp only [List.mem_append, List.mem_map, List.mem_cons,
       List.not_mem_nil, or_false] at ha
     rcases ha with ⟨t, ht, rfl⟩ | rfl <;> rfl)

/-- The TXIO phase never emits the outbound BlockEvent. -/
theorem countBE_sync_txios (bl : Option Batch) :
    countBE (sync_txios bl) = 0 := by
  cases bl <;> rfl

/-- The claimsMain trace for arbitrary counts, with the batch-emptiness guards
collapsed. -/
theorem claimsMain_acts (i : Bool) (bl : Option Batch) (t : Nat)
    (cb ct : List Batch) (d tk cs ch : Nat) :
    (claimsMain i bl t cb ct d tk cs ch).1 =
      Act.startClaimMain t ::
        ((cb.map (fun b => Act.claimsInsert txoChannel b (!i)) ++
          (if i = true then []
           else cb.map (fun b => Act.claimsUpdate txoChannel b))) ++
         (ct.map (fun b => Act.claimsInsert contentTypeCodes b (!i)) ++
          (if i = true then []
           else ct.map (fun b => Act.claimsUpdate contentTypeCodes b))) ++
         (if 0 < d then [Act.claimsDelete d] else []) ++
         (if 0 < tk then [Act.updateTakeovers bl tk] else []) ++
         (if 0 < cs then [Act.updateStakes bl cs] else [])) := by
  cases cb <;> cases ct <;> cases i <;> simp [claimsMain]

/-- The claim phase never emits the outbound BlockEvent. -/
theorem countBE_claimsMain (i : Bool) (bl : Option Batch) (t : Nat)
    (cb ct : List Batch) (d tk cs ch : Nat) :
    countBE (claimsMain i bl t cb ct d tk cs ch).1 = 0 := by
  rw [claimsMain_acts]
  simp only [countBE, List.countP_cons, List.countP_append]
  rw [show (List.countP (fun a => isBlockEvent a)
        (cb.map (fun b => Act.claimsInsert txoChannel b (!i)))) = 0 from
      countBE_map _ _ (fun _ => rfl)]
  rw [show (List.countP (fun a => isBlockEvent a)
        (ct.map (fun b => Act.claimsInsert contentTypeCodes b (!i)))) = 0 from
      countBE_map _ _ (fun _ => rfl)]
  rw [show (List.countP (fun a => isBlockEvent a)
        (if i = true then []
         else cb.map (fun b => Act.claimsUpdate txoChannel b))) = 0 from
      countBE_ite _ _ _ rfl (countBE_map _ _ (fun _ => rfl))]
  rw [show (List.countP (fun a => isBlockEvent a)
        (if i = true then []
         else ct.map (fun b => Act.claimsUpdate contentTypeCodes b))) = 0 from
      countBE_ite _ _ _ rfl (countBE_map _ _ (fun _ => rfl))]
  rw [show (List.countP (fun a => isBlockEvent a)
        (if 0 < d then [Act.claimsDelete d] else [])) = 0 from
      countBE_ite _ _ _ rfl rfl]
  rw [show (List.countP (fun a => isBlockEvent a)
        (if 0 < tk then [Act.updateTakeovers bl tk] else [])) = 0 from
      countBE_ite _ _ _ rfl rfl]
  rw [show (List.countP (fun a => isBlockEvent a)
        (if 0 < cs then [Act.updateStakes bl cs] else [])) = 0 from
      countBE_ite _ _ _ rfl rfl]
  rfl

/-- Under an incremental sync over an added range, sync_claims reduces to the
incremental branch of claimsMain applied to the six planning counts. -/
theorem sync_claims_incremental (env : Env) (bs : Batch)
    (hclaims : env.has_claims = true) :
    sync_claims env (some bs) =
      claimsMain false (some bs)
        (env.count_unspent_txos txoChannel bs false false true
          + env.count_unspent_txos contentTypeCodes bs false false true
          + env.count_abandoned_claims
          + env.count_claims_with_changed_supports bs
          + env.count_channels_with_changed_content bs
          + env.get_takeover_count bs)
        (if 0 < env.count_unspent_txos txoChannel bs false false true
         then [bs] else [])
        (if 0 < env.count_unspent_txos contentTypeCodes bs false false true
         then [bs] else [])
        env.count_abandoned_claims (env.get_takeover_count bs)
        (env.count_claims_with_changed_supports bs)
        (env.count_channels_with_changed_content bs) := by
  simp [sync_claims, hclaims]

/-- sync_claims never emits the outbound BlockEvent. -/
theorem countBE_sync_claims (env : Env) (bl : Option Batch) :
    countBE (sync_claims env bl).1 = 0 := by
  cases hc : env.has_claims
  · rw [sync_claims_initial env bl hc]
    apply countBE_claimsMain
  · cases bl with
    | none => simp [sync_claims, hc, countBE]
    | some bs =>
      rw [sync_claims_incremental env bs hc]
      apply countBE_claimsMain

/-- sync_supports never emits the outbound BlockEvent. -/
theorem countBE_sync_supports (env : Env) (bl : Option Batch) :
    countBE (sync_supports env bl) = 0 := by
  have hins : ∀ (sb : List Batch) (u : Bool),
      countBE (if sb.isEmpty then []
               else sb.map (fun b => Act.supportsInsert b u)) = 0 :=
    fun sb u => countBE_ite _ _ _ rfl (countBE_map _ _ (fun _ => rfl))
  have hdel : ∀ n : Nat,
      countBE (if 0 < n then [Act.supportsDelete n] else []) = 0 :=
    fun n => countBE_ite _ _ _ rfl rfl
  cases hs : env.has_supports
  · have heq : sync_supports env bl =
        [Act.startSupportMain (env.distribute_unspent_txos txoSupport).1] ++
          (if (env.distribute_unspent_txos txoSupport).2.isEmpty then []
           else (env.distribute_unspent_txos txoSupport).2.map
             (fun b => Act.supportsInsert b false)) := by
      simp [sync_supports, hs]
    rw [heq, countBE_append, hins]
    rfl
  · cases bl with
    | none => simp [sync_supports, hs, countBE]
    | some bs =>
      have heq : sync_supports env (some bs) =
          [Act.startSupportMain
              (env.count_unspent_txos txoSupport bs true false false
                + env.count_abandoned_supports)] ++
            (if (if 0 < env.count_unspent_txos txoSupport bs true false false
                 then [bs] else []).isEmpty then []
             else (if 0 < env.count_unspent_txos txoSupport bs true false false
                   then [bs] else []).map
               (fun b => Act.supportsInsert b true)) ++
            (if 0 < env.count_abandoned_supports
             then [Act.supportsDelete env.count_abandoned_supports]
             else []) := by
        simp [sync_supports, hs]
      rw [heq, countBE_append, countBE_append, hins, hdel]
      rfl

/-- sync_channel_stats never emits the outbound BlockEvent. -/
theorem countBE_sync_channel_stats (bl : Option Batch) (i : Bool) (n : Nat) :
    countBE (sync_channel_stats bl i n) = 0 := by
  unfold sync_channel_stats
  split <;> rfl

/-- Cold-start environment identical to envCold except that the
spv_address_filters configuration flag is on, so the stub filter phase runs
run_tasks on its empty task list. -/
def envColdFilters : Env := { envCold with spv_address_filters := true }

/-- C5 counterexample: with address filters enabled, a cycle that does add
blocks (sync_blocks returns the range 0..9) still emits no BlockEvent — the
stub sync_filters awaits run_tasks on an empty task list, asyncio.wait raises
ValueError, and advance re-raises it at the filter-task await before reaching
the emission — refuting the unconditional claim that every cycle with added
blocks emits exactly one BlockEvent. -/
theorem C5_block_event_counterexample :
    (sync_blocks envColdFilters ⟨false, []⟩).2.2 =
      Except.ok (some (some 0, 9)) ∧
    (advance envColdFilters).2 = Except.error PyErr.valueError ∧
    countBE (advance envColdFilters).1 = 0 :=
  ⟨rfl, rfl, rfl⟩

/-- C5, amended: with the filter phase disabled by configuration (so the
detached filter task can complete), whenever sync_blocks
reports an added range the cycle trace of advance contains exactly one
BlockEvent, carrying the range end (the maximum height committed across the
block-file tasks), and that event is the very last effect of the cycle —
after sync_txios, sync_claims, sync_supports, sync_channel_stats and the
awaited trend and filter tasks; when sync_blocks reports no added range or
raises, no BlockEvent at all appears in the trace. -/
theorem C5_block_event (env : Env) (hspv : env.spv_address_filters = false) :
    (∀ b : Batch,
      (sync_blocks env ⟨false, []⟩).2.2 = Except.ok (some b) →
      (advance env).2 = Except.ok () ∧
      (advance env).1.getLast? = some (Act.blockEvent b.2) ∧
      countBE (advance env).1 = 1) ∧
    ((sync_blocks env ⟨false, []⟩).2.2 = Except.ok none →
      countBE (advance env).1 = 0) ∧
    (∀ e, (sync_blocks env ⟨false, []⟩).2.2 = Except.error e →
      countBE (advance env).1 = 0) := by
  have hsf : ∀ t : TGState, sync_filters env t = (t, Except.ok ()) :=
    fun t => by simp [sync_filters, hspv]
  have hm : ∀ bl : Option Batch,
      countBE (match (sync_claims env bl).2 with
        | some st => sync_channel_stats bl st.1 st.2
        | none => []) = 0 := by
    intro bl
    rcases (sync_claims env bl).2 with _ | st
    · rfl
    · exact countBE_sync_channel_stats _ _ _
  refine ⟨?_, ?_, ?_⟩
  · intro b hb
    have hadv : advance env =
        ((sync_blocks env ⟨false, []⟩).1 ++
           [Act.startFiltersTask, Act.startTrendsTask] ++
           sync_txios (some b) ++
           (sync_claims env (some b)).1 ++
           sync_supports env (some b) ++
           (match (sync_claims env (some b)).2 with
            | some st => sync_channel_stats (some b) st.1 st.2
            | none => []) ++
           [Act.awaitTrends] ++ [Act.awaitFilters, Act.blockEvent b.2],
         Except.ok ()) := by
      simp only [advance, hb, hsf]
    rw [hadv]
    refine ⟨rfl, ?_, ?_⟩
    · rw [List.getLast?_append_cons]
      rfl
    · simp only [countBE_append]
      rw [countBE_sync_blocks, countBE_sync_txios, countBE_sync_claims,
        countBE_sync_supports, hm]
      rfl
  · intro hb
    have hadv : advance env =
        ((sync_blocks env ⟨false, []⟩).1 ++
           [Act.startFiltersTask, Act.startTrendsTask] ++
           sync_txios none ++
           (sync_claims env none).1 ++
           sync_supports env none ++
           (match (sync_claims env none).2 with
            | some st => sync_channel_stats none st.1 st.2
            | none => []) ++
           [Act.awaitTrends] ++ [Act.awaitFilters],
         Except.ok ()) := by
      simp only [advance, hb, hsf]
    rw [hadv]
    simp only [countBE_append]
    rw [countBE_sync_blocks, countBE_sync_txios, countBE_sync_claims,
      countBE_sync_supports, hm]
    rfl
  · intro e hb
    have hadv : advance env = ((sync_blocks env ⟨false, []⟩).1,
        Except.error e) := by
      simp only [advance, hb]
    rw [hadv]
    exact countBE_sync_blocks env ⟨false, []⟩

/-- C5 witness: the cold-start environment adds blocks 0..9 and its cycle
trace ends in exactly one BlockEvent at height 9. -/
theorem C5_block_event_witness :
    envCold.spv_address_filters = false ∧
    (sync_blocks envCold ⟨false, []⟩).2.2 = Except.ok (some (some 0, 9)) ∧
    (advance envCold).2 = Except.ok () ∧
    (advance envCold).1.getLast? = some (Act.blockEvent 9) ∧
    countBE (advance envCold).1 = 1 := by
  have h := (C5_block_event envCold rfl).1 (some 0, 9) rfl
  exact ⟨rfl, rfl, h.1, h.2.1, h.2.2⟩
